import Mathlib

/-!
Verification of the client-side authentication/session state machine and of
the gallery CRUD service of the sb1-b7mbyd12 repository.

The TypeScript source is shallowly embedded: each operation of the auth
context (`src/lib/auth-context.tsx`), the session-expiry check of
`src/components/auth/ProtectedRoute.tsx` and the gallery service functions
(`src/lib/gallery-service.ts`) become pure Lean functions.  Every
asynchronous call to the hosted backend (identity provider or profile
store) is modelled by passing the response of that remote call as an
explicit argument of type `Except`/`Option`.  A thrown JavaScript
exception that is re-raised to the caller is modelled by the `thrown`
field of the operation result; where the source has no catch block (the
`onAuthStateChange` callback) the escaping rejection is modelled by the
state being returned unchanged.  Timestamps are epoch seconds as natural
numbers.
-/

namespace GalleryApp

/-- The authenticated principal (the `User` value of the provider SDK):
unique id and email. -/
structure Identity where
  id : String
  email : String
deriving DecidableEq, Repr

/-- Row of `public.profiles` (migration `20240101000000_initial_setup.sql`):
id references the identity, username and avatar_url are nullable. -/
structure Profile where
  id : String
  username : Option String
  avatar_url : Option String
deriving DecidableEq, Repr

/-- A session issued by the identity provider.  In the provider SDK the
`user` field of a session is always present and `expires_at` (epoch
seconds) is optional. -/
structure Session where
  user : Identity
  expires_at : Option Nat
deriving DecidableEq, Repr

/-- An error value thrown inside the auth context.  `isAuthError` records
whether the JavaScript value is an instance of the provider class
`AuthError`; every value thrown on the modelled paths is an `Error`
instance, so `message` is always available. -/
structure ErrVal where
  isAuthError : Bool
  message : String
deriving DecidableEq, Repr

/-- The `AuthState` aggregate of `auth-context.tsx` (lines 6-13). -/
structure AuthState where
  user : Option Identity
  profile : Option Profile
  session : Option Session
  loading : Bool
  error : Option String
  isAuthenticated : Bool
deriving DecidableEq, Repr

/-- The initial state passed to `useState` (auth-context.tsx lines 26-33). -/
def initState : AuthState :=
  { user := none, profile := none, session := none,
    loading := true, error := none, isAuthenticated := false }

/-- The state written on every successful session-plus-profile fetch; the
same record literal appears in `initializeAuth`, in the `onAuthStateChange`
handler and in `signIn`. -/
def authedState (s : Session) (p : Profile) : AuthState :=
  { user := some s.user, profile := some p, session := some s,
    loading := false, error := none, isAuthenticated := true }

/-- The fully cleared unauthenticated state, written by `initializeAuth`
when no session exists, by the `onAuthStateChange` handler on a null
session, and by `signOut` on success. -/
def signedOutState : AuthState :=
  { user := none, profile := none, session := none,
    loading := false, error := none, isAuthenticated := false }

/-- The state written by the catch block of `initializeAuth` (lines 63-70):
the previous state with loading cleared, the message of the thrown value
recorded (every value thrown on this path is an `Error` instance, so the
`Authentication initialization failed` fallback of the source is dead),
and `isAuthenticated` forced to false.  `user`, `profile` and `session`
are kept from the previous state. -/
def initCatchState (prev : AuthState) (e : ErrVal) : AuthState :=
  { prev with loading := false, error := some e.message, isAuthenticated := false }

/-- The `initializeAuth` function, the restore operation of the spec
(auth-context.tsx lines 36-72).  `sessRes` is the response of
`supabase.auth.getSession` (an error or an optional session); `fetchRes`
is the outcome of `fetchProfile` for the session user, consulted only when
a session with a user is present.  React delivers the state at update
time as `prev`; the source invokes the function exactly once, from
`initState`. -/
def initializeAuth (prev : AuthState) (sessRes : Except ErrVal (Option Session))
    (fetchRes : Except ErrVal Profile) : AuthState :=
  match sessRes with
  | .error e => initCatchState prev e
  | .ok none => signedOutState
  | .ok (some s) =>
    match fetchRes with
    | .ok p => authedState s p
    | .error e => initCatchState prev e

/-- The `onAuthStateChange` callback (auth-context.tsx lines 77-98).  The
callback body has no try/catch: when `fetchProfile` throws, `setAuthState`
is never reached and the rejection escapes the async callback, so the
aggregate state is left unchanged. -/
def onProviderNotify (prev : AuthState) (notif : Option Session)
    (fetchRes : Except ErrVal Profile) : AuthState :=
  match notif with
  | some s =>
    match fetchRes with
    | .ok p => authedState s p
    | .error _ => prev
  | none => signedOutState

/-- Result of a caller-invoked operation: the new aggregate state and the
exception re-raised to the caller (`none` means a normal return). -/
structure OpResult where
  state : AuthState
  thrown : Option ErrVal
deriving DecidableEq, Repr

/-- The visible message computed by the catch block of `signIn`
(lines 139-141): the provider message when the thrown value is an
`AuthError`, otherwise the generic credential-failure message. -/
def signInMsg (e : ErrVal) : String :=
  if e.isAuthError then e.message
  else "Failed to sign in. Please check your credentials and try again."

/-- The state written by the catch block of `signIn` (lines 143-147): the
previous state with only `error` and `isAuthenticated` replaced. -/
def signInCatchState (prev : AuthState) (e : ErrVal) : AuthState :=
  { prev with error := some (signInMsg e), isAuthenticated := false }

/-- The `signIn` operation (auth-context.tsx lines 119-150).  `providerRes`
is the outcome of `signInWithPassword`: an `AuthError`, or an optional
session.  A missing session without an explicit error is thrown as a plain
`Error` with message `No session created after sign in`, which is not an
`AuthError`.  `fetchRes` is the `fetchProfile` outcome, consulted only
after a session is obtained; `fetchProfile` re-throws its store error,
which is not an `AuthError` either. -/
def signIn (prev : AuthState) (providerRes : Except ErrVal (Option Session))
    (fetchRes : Except ErrVal Profile) : OpResult :=
  match providerRes with
  | .error e => { state := signInCatchState prev e, thrown := some e }
  | .ok none =>
    let e : ErrVal := { isAuthError := false, message := "No session created after sign in" }
    { state := signInCatchState prev e, thrown := some e }
  | .ok (some s) =>
    match fetchRes with
    | .error e => { state := signInCatchState prev e, thrown := some e }
    | .ok p => { state := authedState s p, thrown := none }

/-- Payload of a successful provider signUp call: `data.user` and
`data.session`; the session is absent when email confirmation is
pending. -/
structure SignUpData where
  user : Identity
  session : Option Session
deriving DecidableEq, Repr

/-- The visible message computed by the catch block of `signUp`
(lines 177-179). -/
def signUpMsg (e : ErrVal) : String :=
  if e.isAuthError then e.message else "Registration failed. Please try again."

/-- The state written by the catch block of `signUp` (lines 181-185). -/
def signUpCatchState (prev : AuthState) (e : ErrVal) : AuthState :=
  { prev with error := some (signUpMsg e), isAuthenticated := false }

/-- The `signUp` operation (auth-context.tsx lines 152-188).  A missing
session in the response is thrown as a plain `Error` instructing the user
to check their inbox.  On success the state is built from `data.user` and
`data.session`. -/
def signUp (prev : AuthState) (providerRes : Except ErrVal SignUpData)
    (fetchRes : Except ErrVal Profile) : OpResult :=
  match providerRes with
  | .error e => { state := signUpCatchState prev e, thrown := some e }
  | .ok d =>
    match d.session with
    | none =>
      let e : ErrVal := { isAuthError := false,
                          message := "Email confirmation required. Please check your inbox." }
      { state := signUpCatchState prev e, thrown := some e }
    | some s =>
      match fetchRes with
      | .error e => { state := signUpCatchState prev e, thrown := some e }
      | .ok p =>
        { state := { user := some d.user, profile := some p, session := some s,
                     loading := false, error := none, isAuthenticated := true },
          thrown := none }

/-- The visible message computed by the catch block of `signOut`
(lines 204-206). -/
def signOutMsg (e : ErrVal) : String :=
  if e.isAuthError then e.message else "Failed to sign out. Please try again."

/-- The `signOut` operation (auth-context.tsx lines 190-214).
`providerRes` is the error of the provider signOut call, or `none` on
success.  Success resets to the fully cleared state; failure replaces only
the `error` field and re-raises. -/
def signOut (prev : AuthState) (providerRes : Option ErrVal) : OpResult :=
  match providerRes with
  | none => { state := signedOutState, thrown := none }
  | some e => { state := { prev with error := some (signOutMsg e) }, thrown := some e }

/-- Result of `updateProfile`: the new state, the re-raised exception, and
whether the profile-store update call was issued. -/
structure UpdateResult where
  state : AuthState
  thrown : Option ErrVal
  storeCalled : Bool
deriving DecidableEq, Repr

/-- The `updateProfile` operation (auth-context.tsx lines 216-247).  The
unauthenticated guard stands before the try block: it throws a plain
`Error` with message `No authenticated user` without touching the state
and without issuing the store call.  `storeRes` is the outcome of the
profile-store update, consulted only when a user is present.  The catch
block computes the message of the thrown value (every store failure is an
`Error` instance, so the generic fallback of the source is dead). -/
def updateProfile (prev : AuthState) (storeRes : Except ErrVal Profile) : UpdateResult :=
  match prev.user with
  | none =>
    { state := prev,
      thrown := some { isAuthError := false, message := "No authenticated user" },
      storeCalled := false }
  | some _ =>
    match storeRes with
    | .ok p =>
      { state := { prev with profile := some p, error := none },
        thrown := none, storeCalled := true }
    | .error e =>
      { state := { prev with error := some e.message },
        thrown := some e, storeCalled := true }

/-- The `clearError` operation (auth-context.tsx lines 249-254). -/
def clearError (prev : AuthState) : AuthState :=
  { prev with error := none }

/-- The session-expiry check of `ProtectedRoute.tsx` line 57:
`session.expires_at && Date.now() / 1000 >= session.expires_at`, with
`now` the current time in epoch seconds.  A missing `expires_at` is falsy
in JavaScript, and so is the number 0: in both cases the conjunction
short-circuits and the session is not reported expired. -/
def sessionExpired (now : Nat) (s : Session) : Bool :=
  match s.expires_at with
  | none => false
  | some t => if t = 0 then false else decide (t ≤ now)

/-- One state transition of the Session Manager: any operation of the auth
context, run against arbitrary responses of the identity provider and of
the profile store. -/
inductive Step : AuthState → AuthState → Prop where
  | restore (s : AuthState) (sessRes : Except ErrVal (Option Session))
      (fetchRes : Except ErrVal Profile) :
      Step s (initializeAuth s sessRes fetchRes)
  | notify (s : AuthState) (notif : Option Session)
      (fetchRes : Except ErrVal Profile) :
      Step s (onProviderNotify s notif fetchRes)
  | sign_in (s : AuthState) (providerRes : Except ErrVal (Option Session))
      (fetchRes : Except ErrVal Profile) :
      Step s (signIn s providerRes fetchRes).state
  | sign_up (s : AuthState) (providerRes : Except ErrVal SignUpData)
      (fetchRes : Except ErrVal Profile) :
      Step s (signUp s providerRes fetchRes).state
  | sign_out (s : AuthState) (providerRes : Option ErrVal) :
      Step s (signOut s providerRes).state
  | update_profile (s : AuthState) (storeRes : Except ErrVal Profile) :
      Step s (updateProfile s storeRes).state
  | clear_error (s : AuthState) :
      Step s (clearError s)

/-- The states of the aggregate reachable from the initial state. -/
inductive Reachable : AuthState → Prop where
  | init : Reachable initState
  | step {s t : AuthState} (hr : Reachable s) (hs : Step s t) : Reachable t

/-- An error returned by the hosted store client: error code and message. -/
structure StoreError where
  code : String
  message : String
deriving DecidableEq, Repr

/-- A row of the galleries table as returned by the store. -/
structure GalleryRow where
  id : String
  user_id : String
  name : String
  description : String
  category : String
  is_public : Bool
deriving DecidableEq, Repr

/-- The character class of the regex `[a-z0-9-]`. -/
def isCategoryChar (c : Char) : Bool :=
  (decide ('a' ≤ c) && decide (c ≤ 'z'))
    || (decide ('0' ≤ c) && decide (c ≤ '9'))
    || (c == '-')

/-- The test of the regex `[a-z0-9-]+` anchored at both ends
(gallery-service.ts line 21): at least one character, and every character
drawn from the class `[a-z0-9-]`. -/
def categoryFormatOk (category : String) : Bool :=
  !category.isEmpty && category.data.all isCategoryChar

/-- A value thrown by the gallery service: either an `Error` constructed
in the service with a message, or a store error re-thrown as is. -/
inductive GalleryErr where
  | appErr (message : String)
  | storeErr (e : StoreError)
deriving DecidableEq, Repr

/-- Result of `createGallery`: the returned row or the thrown value, plus
whether any query against the hosted store was issued. -/
structure CreateResult where
  result : Except GalleryErr GalleryRow
  storeCalled : Bool
deriving Repr

/-- The `createGallery` function (gallery-service.ts lines 14-64).  Remote
responses are explicit arguments: `existing` is the data of the
duplicate-category lookup (the source destructures only `data` and
discards the error of that query), `userRes` is the current user from the
auth client, `insertRes` the insert outcome (a store error with code 23505
is replaced by the duplicate-category message).  `storeCalled` records
whether any store query was issued; the category-format check precedes the
first one. -/
def createGallery (name description category : String) (isPublic : Bool)
    (existing : Option GalleryRow) (userRes : Option Identity)
    (insertRes : Except StoreError GalleryRow) : CreateResult :=
  if !categoryFormatOk category then
    { result := .error (.appErr "Category can only contain lowercase letters, numbers, and hyphens"),
      storeCalled := false }
  else if existing.isSome then
    { result := .error
        (.appErr "A gallery with this category already exists. Please choose a different category."),
      storeCalled := true }
  else
    match userRes with
    | none =>
      { result := .error (.appErr "User must be logged in to create a gallery"),
        storeCalled := true }
    | some _ =>
      match insertRes with
      | .ok row => { result := .ok row, storeCalled := true }
      | .error e =>
        if e.code = "23505" then
          { result := .error
              (.appErr "A gallery with this category already exists. Please choose a different category."),
            storeCalled := true }
        else
          { result := .error (.storeErr e), storeCalled := true }

/-- The `getGalleryByCategory` function (gallery-service.ts lines 90-102):
a store error with code PGRST116 (no rows returned) yields null; any other
error is re-thrown; a row is returned as is. -/
def getGalleryByCategory (queryRes : Except StoreError GalleryRow) :
    Except StoreError (Option GalleryRow) :=
  match queryRes with
  | .ok g => .ok (some g)
  | .error e => if e.code = "PGRST116" then .ok none else .error e

/-- Concrete identity used by the scenario of the spec. -/
def aliceId : Identity := { id := "u1", email := "a@b.com" }

/-- Concrete profile used by the scenario of the spec. -/
def aliceProfile : Profile := { id := "u1", username := some "alice", avatar_url := none }

/-- A session for the scenario identity that expires at time `t`. -/
def sessionAt (t : Nat) : Session := { user := aliceId, expires_at := some t }

/-- A provider credential failure (an `AuthError` instance). -/
def credErr : ErrVal := { isAuthError := true, message := "Invalid login credentials" }

/-- A profile-store failure re-thrown by `fetchProfile`. -/
def fetchBoom : ErrVal := { isAuthError := false, message := "Failed to fetch profile" }

/-- The state reached by restoring a session that expires at time 10. -/
def stateExpiredAuthed : AuthState :=
  initializeAuth initState (Except.ok (some (sessionAt 10))) (Except.ok aliceProfile)

/-- The state after a failed signIn attempted from an authenticated state
holding a session that expires at time 1000. -/
def stateStaleAfterFailedSignIn : AuthState :=
  (signIn (initializeAuth initState (Except.ok (some (sessionAt 1000))) (Except.ok aliceProfile))
    (Except.error credErr) (Except.ok aliceProfile)).state

/-- The store error signalling that no rows matched a single-row query. -/
def noRowsErr : StoreError := { code := "PGRST116", message := "No rows returned" }

/-- A store error with a code other than PGRST116. -/
def otherStoreErr : StoreError := { code := "42P01", message := "relation does not exist" }

/-- A concrete gallery row. -/
def someRow : GalleryRow :=
  { id := "g1", user_id := "u1", name := "My Gallery", description := "",
    category := "funny-cats", is_public := true }

/-- Helper for the reachability invariant: every single step preserves the
property that a state with `isAuthenticated = true` carries an identity
and a session. -/
theorem step_preserves_presence {s t : AuthState} (h : Step s t)
    (ih : s.isAuthenticated = true → s.user.isSome ∧ s.session.isSome) :
    t.isAuthenticated = true → t.user.isSome ∧ t.session.isSome := by
  cases h with
  | restore sessRes fetchRes =>
    rcases sessRes with e | o
    · exact fun ha => Bool.noConfusion ha
    · rcases o with _ | sess
      · exact fun ha => Bool.noConfusion ha
      · rcases fetchRes with e | p
        · exact fun ha => Bool.noConfusion ha
        · exact fun _ => ⟨rfl, rfl⟩
  | notify notif fetchRes =>
    rcases notif with _ | sess
    · exact fun ha => Bool.noConfusion ha
    · rcases fetchRes with e | p
      · exact ih
      · exact fun _ => ⟨rfl, rfl⟩
  | sign_in providerRes fetchRes =>
    rcases providerRes with e | o
    · exact fun ha => Bool.noConfusion ha
    · rcases o with _ | sess
      · exact fun ha => Bool.noConfusion ha
      · rcases fetchRes with e | p
        · exact fun ha => Bool.noConfusion ha
        · exact fun _ => ⟨rfl, rfl⟩
  | sign_up providerRes fetchRes =>
    rcases providerRes with e | d
    · exact fun ha => Bool.noConfusion ha
    · obtain ⟨du, dsess⟩ := d
      rcases dsess with _ | sess
      · exact fun ha => Bool.noConfusion ha
      · rcases fetchRes with e | p
        · exact fun ha => Bool.noConfusion ha
        · exact fun _ => ⟨rfl, rfl⟩
  | sign_out providerRes =>
    rcases providerRes with _ | e
    · exact fun ha => Bool.noConfusion ha
    · exact ih
  | update_profile storeRes =>
    obtain ⟨u0, p0, se0, l0, er0, ia0⟩ := s
    rcases u0 with _ | u
    · exact ih
    · rcases storeRes with e | p
      · exact ih
      · exact ih
  | clear_error =>
    exact ih

/-- Claim C1, counterexample.  Two concrete reachable states refute the
stated if-and-only-if: `stateExpiredAuthed` (reached by restoring a
session that expires at time 10) has `isAuthenticated = true` although at
time 100 its session is expired; `stateStaleAfterFailedSignIn` (reached by
an authenticated restore followed by a failed signIn) has
`isAuthenticated = false` although identity and a session that is not
expired at time 100 are still present. -/
theorem C1_counterexample :
    (Reachable stateExpiredAuthed
      ∧ stateExpiredAuthed.isAuthenticated = true
      ∧ stateExpiredAuthed.user = some aliceId
      ∧ stateExpiredAuthed.session = some (sessionAt 10)
      ∧ sessionExpired 100 (sessionAt 10) = true)
    ∧ (Reachable stateStaleAfterFailedSignIn
      ∧ stateStaleAfterFailedSignIn.isAuthenticated = false
      ∧ stateStaleAfterFailedSignIn.user = some aliceId
      ∧ stateStaleAfterFailedSignIn.session = some (sessionAt 1000)
      ∧ sessionExpired 100 (sessionAt 1000) = false) := by
  constructor
  · refine ⟨Reachable.step Reachable.init
      (Step.restore initState (Except.ok (some (sessionAt 10))) (Except.ok aliceProfile)),
      ?_, ?_, ?_, ?_⟩
    · rfl
    · rfl
    · rfl
    · decide
  · refine ⟨Reachable.step (Reachable.step Reachable.init
      (Step.restore initState (Except.ok (some (sessionAt 1000))) (Except.ok aliceProfile)))
      (Step.sign_in (initializeAuth initState (Except.ok (some (sessionAt 1000)))
        (Except.ok aliceProfile)) (Except.error credErr) (Except.ok aliceProfile)),
      ?_, ?_, ?_, ?_⟩
    · rfl
    · rfl
    · rfl
    · decide

/-- Claim C1, amended: in every reachable state of the Session Manager,
`isAuthenticated = true` implies that the identity and the session are
present.  The stored flag does not track expiry, and a failed signIn can
leave identity and a non-expired session present with the flag false. -/
theorem C1_authenticated_implies_presence (s : AuthState) (hr : Reachable s) :
    s.isAuthenticated = true → s.user.isSome ∧ s.session.isSome := by
  induction hr with
  | init => exact fun ha => Bool.noConfusion ha
  | step hr hs ih => exact step_preserves_presence hs ih

/-- Witness for the amended claim C1 at a concrete reachable state. -/
theorem C1_authenticated_implies_presence_witness :
    stateExpiredAuthed.user.isSome ∧ stateExpiredAuthed.session.isSome :=
  C1_authenticated_implies_presence stateExpiredAuthed
    (Reachable.step Reachable.init
      (Step.restore initState (Except.ok (some (sessionAt 10))) (Except.ok aliceProfile)))
    (by decide)

/-- Claim C2, counterexample.  From a concrete authenticated prior state,
a provider notification delivering a fresh session whose profile fetch
fails leaves the state exactly as it was (error still `none`), instead of
transitioning to Unauthenticated with the error populated as the restore
failure path does. -/
theorem C2_counterexample :
    onProviderNotify (authedState (sessionAt 1000) aliceProfile)
        (some (sessionAt 2000)) (Except.error fetchBoom)
      = authedState (sessionAt 1000) aliceProfile
    ∧ (authedState (sessionAt 1000) aliceProfile).user = some aliceId
    ∧ (authedState (sessionAt 1000) aliceProfile).error = none
    ∧ (authedState (sessionAt 1000) aliceProfile).isAuthenticated = true := by
  refine ⟨rfl, rfl, rfl, rfl⟩

/-- Claim C2, amended: the notification callback contains no catch block,
so when the profile fetch fails the rejection escapes and no state update
happens: the prior SessionState — whatever it is — is left unchanged and
no error is recorded.  Only the null-session path and the successful-fetch
path update the state. -/
theorem C2_notify_fetch_failure_keeps_state (prev : AuthState) (s : Session) (e : ErrVal) :
    onProviderNotify prev (some s) (Except.error e) = prev := rfl

/-- Claim C3: after restore finds a valid session but the profile fetch
fails, the resulting state has `isAuthenticated = false`, `loading =
false`, a populated error, and no identity; more generally restore from
the initial state never terminates with an identity present but no
profile. -/
theorem C3_restore_profile_fetch_failure (s : Session) (e : ErrVal)
    (sessRes : Except ErrVal (Option Session)) (fetchRes : Except ErrVal Profile) :
    ((initializeAuth initState (Except.ok (some s)) (Except.error e)).isAuthenticated = false
      ∧ (initializeAuth initState (Except.ok (some s)) (Except.error e)).loading = false
      ∧ (initializeAuth initState (Except.ok (some s)) (Except.error e)).error = some e.message
      ∧ (initializeAuth initState (Except.ok (some s)) (Except.error e)).user = none)
    ∧ ((initializeAuth initState sessRes fetchRes).user.isSome →
        (initializeAuth initState sessRes fetchRes).profile.isSome) := by
  refine ⟨⟨rfl, rfl, rfl, rfl⟩, ?_⟩
  rcases sessRes with e2 | o
  · exact fun h => Bool.noConfusion h
  · rcases o with _ | sess
    · exact fun h => Bool.noConfusion h
    · rcases fetchRes with e2 | p
      · exact fun h => Bool.noConfusion h
      · exact fun _ => rfl

/-- Witness for claim C3 at concrete inputs. -/
theorem C3_witness :
    (initializeAuth initState (Except.ok (some (sessionAt 5))) (Except.ok aliceProfile)).profile.isSome :=
  (C3_restore_profile_fetch_failure (sessionAt 5) fetchBoom
    (Except.ok (some (sessionAt 5))) (Except.ok aliceProfile)).2 (by decide)

/-- Claim C4, counterexample.  `updateProfile` called on a concrete state
with no identity (the signed-out state, whose error field is `none`)
throws the precondition error and performs no store call, but the visible
error field of the resulting state is still `none`: the guard stands
before the try block, so the propagation policy that updates the error
field does not apply to this path, contrary to the claim. -/
theorem C4_counterexample :
    (updateProfile signedOutState (Except.ok aliceProfile)).state = signedOutState
    ∧ (updateProfile signedOutState (Except.ok aliceProfile)).state.error = none
    ∧ (updateProfile signedOutState (Except.ok aliceProfile)).thrown
        = some { isAuthError := false, message := "No authenticated user" }
    ∧ (updateProfile signedOutState (Except.ok aliceProfile)).storeCalled = false := by
  refine ⟨rfl, rfl, rfl, rfl⟩

/-- Claim C4, amended: `updateProfile` with no identity present fails
immediately with the `No authenticated user` error and performs no store
call, leaving the whole SessionState — including its error field —
unchanged. -/
theorem C4_no_user_throws_without_store_call (prev : AuthState)
    (storeRes : Except ErrVal Profile) (h : prev.user = none) :
    updateProfile prev storeRes =
      { state := prev,
        thrown := some { isAuthError := false, message := "No authenticated user" },
        storeCalled := false } := by
  unfold updateProfile
  rw [h]

/-- Witness for the amended claim C4 at a concrete input. -/
theorem C4_witness :
    updateProfile signedOutState (Except.error fetchBoom) =
      { state := signedOutState,
        thrown := some { isAuthError := false, message := "No authenticated user" },
        storeCalled := false } :=
  C4_no_user_throws_without_store_call signedOutState (Except.error fetchBoom) rfl

/-- Claim C5, counterexample.  A session whose `expires_at` equals 0 is
strictly in the past at time 1, yet the check of `ProtectedRoute` reports
it not expired, because the number 0 is falsy in JavaScript and the guard
`session.expires_at && ...` short-circuits. -/
theorem C5_counterexample :
    sessionExpired 1 { user := aliceId, expires_at := some 0 } = false
    ∧ (0 : Nat) < 1 := by
  exact ⟨rfl, Nat.zero_lt_one⟩

/-- Claim C5, amended: for a session whose `expires_at` is present and
positive, the check returns expired exactly when now is at or past the
expiry (the boundary now = expires_at counts as expired); a session whose
`expires_at` is absent or equal to 0 is treated as not expired. -/
theorem C5_expiry_check (u : Identity) (t now : Nat) (ht : 0 < t) :
    (sessionExpired now { user := u, expires_at := some t } = true ↔ t ≤ now)
    ∧ sessionExpired t { user := u, expires_at := some t } = true
    ∧ sessionExpired now { user := u, expires_at := none } = false
    ∧ sessionExpired now { user := u, expires_at := some 0 } = false := by
  have ht2 : t ≠ 0 := Nat.pos_iff_ne_zero.mp ht
  refine ⟨?_, ?_, rfl, rfl⟩
  · simp [sessionExpired, ht2]
  · simp [sessionExpired, ht2]

/-- Witness for the amended claim C5 at concrete times. -/
theorem C5_witness :
    (sessionExpired 7 { user := aliceId, expires_at := some 5 } = true ↔ 5 ≤ 7)
    ∧ sessionExpired 5 { user := aliceId, expires_at := some 5 } = true
    ∧ sessionExpired 7 { user := aliceId, expires_at := none } = false
    ∧ sessionExpired 7 { user := aliceId, expires_at := some 0 } = false :=
  C5_expiry_check aliceId 5 7 (by decide)

/-- Claim C6: a provider notification delivering no session
unconditionally moves every prior state to the fully cleared
unauthenticated state, identity, profile, session and error all gone —
including a state produced by an apparently successful earlier signIn. -/
theorem C6_null_notification_clears_state (prev : AuthState)
    (fetchRes : Except ErrVal Profile) :
    onProviderNotify prev none fetchRes =
      { user := none, profile := none, session := none,
        loading := false, error := none, isAuthenticated := false } := rfl

/-- Claim C7: on every signIn failure — provider error, provider returning
no session despite no error, or profile-fetch failure — the state records
a visible message (the provider message for an `AuthError`, otherwise the
generic credential-failure message, which is never empty), sets
`isAuthenticated` to false, and the failure is re-raised to the caller. -/
theorem C7_signIn_failure (prev : AuthState) (e : ErrVal) (s : Session)
    (fetchRes : Except ErrVal Profile) :
    ((signIn prev (Except.error e) fetchRes).state.isAuthenticated = false
      ∧ (signIn prev (Except.error e) fetchRes).state.error = some (signInMsg e)
      ∧ (signIn prev (Except.error e) fetchRes).thrown = some e)
    ∧ ((signIn prev (Except.ok none) fetchRes).state.isAuthenticated = false
      ∧ (signIn prev (Except.ok none) fetchRes).state.error
          = some "Failed to sign in. Please check your credentials and try again."
      ∧ (signIn prev (Except.ok none) fetchRes).thrown
          = some { isAuthError := false, message := "No session created after sign in" })
    ∧ ((signIn prev (Except.ok (some s)) (Except.error e)).state.isAuthenticated = false
      ∧ (signIn prev (Except.ok (some s)) (Except.error e)).state.error = some (signInMsg e)
      ∧ (signIn prev (Except.ok (some s)) (Except.error e)).thrown = some e)
    ∧ (e.isAuthError = true → signInMsg e = e.message)
    ∧ (e.isAuthError = false →
        signInMsg e = "Failed to sign in. Please check your credentials and try again.")
    ∧ (e.message ≠ "" → signInMsg e ≠ "") := by
  refine ⟨⟨rfl, rfl, rfl⟩, ⟨rfl, rfl, rfl⟩, ⟨rfl, rfl, rfl⟩, ?_, ?_, ?_⟩
  · intro hb; simp [signInMsg, hb]
  · intro hb; simp [signInMsg, hb]
  · intro hm
    unfold signInMsg
    cases hb : e.isAuthError
    · simp
    · simpa using hm

/-- Witness for claim C7 at a concrete provider failure. -/
theorem C7_witness :
    signInMsg credErr = credErr.message ∧ signInMsg credErr ≠ "" :=
  ⟨(C7_signIn_failure signedOutState credErr (sessionAt 5) (Except.ok aliceProfile)).2.2.2.1 rfl,
   (C7_signIn_failure signedOutState credErr (sessionAt 5) (Except.ok aliceProfile)).2.2.2.2.2
     (by decide)⟩

/-- Claim C8: `signOut` on success resets every prior state to the fully
empty unauthenticated state (identity, profile, session and error all
cleared); on failure it keeps identity, profile, session — and also
loading and the authentication flag — exactly as they were, replaces only
the error field with the computed message, and re-raises the provider
error to the caller. -/
theorem C8_signOut_reset_or_frame (prev : AuthState) (e : ErrVal) :
    (signOut prev none =
      { state := { user := none, profile := none, session := none,
                   loading := false, error := none, isAuthenticated := false },
        thrown := none })
    ∧ ((signOut prev (some e)).state.user = prev.user
      ∧ (signOut prev (some e)).state.profile = prev.profile
      ∧ (signOut prev (some e)).state.session = prev.session
      ∧ (signOut prev (some e)).state.loading = prev.loading
      ∧ (signOut prev (some e)).state.isAuthenticated = prev.isAuthenticated
      ∧ (signOut prev (some e)).state.error = some (signOutMsg e)
      ∧ (signOut prev (some e)).thrown = some e) := by
  exact ⟨rfl, rfl, rfl, rfl, rfl, rfl, rfl, rfl⟩

/-- Claim C9: whenever the category fails the format check embedded from
the regex of the source, `createGallery` throws the category-format error
and issues no call to the store, whatever the other arguments and remote
responses are. -/
theorem C9_invalid_category_rejected_before_store (name description category : String)
    (isPublic : Bool) (existing : Option GalleryRow) (userRes : Option Identity)
    (insertRes : Except StoreError GalleryRow)
    (h : categoryFormatOk category = false) :
    (createGallery name description category isPublic existing userRes insertRes).result
        = Except.error
            (GalleryErr.appErr "Category can only contain lowercase letters, numbers, and hyphens")
    ∧ (createGallery name description category isPublic existing userRes insertRes).storeCalled
        = false := by
  unfold createGallery
  rw [h]
  exact ⟨rfl, rfl⟩

/-- Witness for claim C9 at the scenario category of the spec, which
contains an uppercase letter, a space and punctuation. -/
theorem C9_witness :
    (createGallery "My Gallery" "" "Invalid Category!" true none none
        (Except.error noRowsErr)).result
      = Except.error
          (GalleryErr.appErr "Category can only contain lowercase letters, numbers, and hyphens")
    ∧ (createGallery "My Gallery" "" "Invalid Category!" true none none
        (Except.error noRowsErr)).storeCalled = false :=
  C9_invalid_category_rejected_before_store "My Gallery" "" "Invalid Category!" true none none
    (Except.error noRowsErr) (by decide)

/-- Claim C10: `getGalleryByCategory` turns the no-rows store error
PGRST116 into a null result instead of raising, re-raises every store
error with any other code, and wraps a found row in the result. -/
theorem C10_no_rows_is_null (e : StoreError) (g : GalleryRow) :
    (e.code = "PGRST116" → getGalleryByCategory (Except.error e) = Except.ok none)
    ∧ (e.code ≠ "PGRST116" → getGalleryByCategory (Except.error e) = Except.error e)
    ∧ getGalleryByCategory (Except.ok g) = Except.ok (some g) := by
  refine ⟨?_, ?_, rfl⟩
  · intro h; simp [getGalleryByCategory, h]
  · intro h; simp [getGalleryByCategory, h]

/-- Witness for claim C10 at concrete store errors. -/
theorem C10_witness :
    getGalleryByCategory (Except.error noRowsErr) = Except.ok none
    ∧ getGalleryByCategory (Except.error otherStoreErr) = Except.error otherStoreErr :=
  ⟨(C10_no_rows_is_null noRowsErr someRow).1 rfl,
   (C10_no_rows_is_null otherStoreErr someRow).2.1 (by decide)⟩

end GalleryApp
